import Mathlib

/-!
Shallow embedding of `src/server/src/monitors/chargeMonitor.ts` (the `ChargeMonitor`
class of the meross-power-notify repository).

Modelling conventions:
* JS numbers that carry prices, percentages and power are modelled by `ℚ`;
  epoch-millisecond timestamps by `ℤ`.
* The wall clock (`Date.now()`, `new Date().getDay()/getHours()/getMinutes()`)
  is an explicit `Clock` argument.  The epoch value and the local calendar
  fields are independent inputs, since the local timezone is environmental.
* `getUpcomingCutoff` performs local-calendar `Date` arithmetic; its resulting
  epoch-ms value is passed in as an environment input (`CycleEnv.cutoff`),
  matching how `shouldCharge` merely consumes the computed number.
* TypeScript `Partial` objects are modelled with `Option` fields.  For the
  `chargingTimes` key of `setLastUpdate` the three JS states are kept apart,
  because object spread distinguishes them: key absent (`none`), key present
  with value `undefined` (`some none`), key present with an array
  (`some (some l)`).
* Exceptions (`throw`, and the TypeError raised by reading `.perKwh` of
  `undefined` when `lowestPrices` is empty) are modelled with `Except String`.
* `Array.prototype.sort` with comparator `a.perKwh - b.perKwh` is a stable
  ascending sort; it is modelled by `List.insertionSort`, which is stable.
* `Array.prototype.slice(0, n)` with a possibly negative `n` is modelled by
  `jsSliceTo`.
-/

/-- The `type` tag of a price interval: `'CurrentInterval' | 'Forecast'`. -/
inductive PriceType where
  | CurrentInterval
  | Forecast
deriving DecidableEq

/-- One price interval returned by `getUpcomingRates`. -/
structure PriceInterval where
  perKwh : ℚ
  endTimestamp : ℤ
  type : PriceType
deriving DecidableEq

/-- The `ChargeMonitorSettings` baseline policy record. -/
structure ChargeMonitorSettings where
  cutoffHour : ℤ
  maxPrice : ℚ
  stateOfCharge : ℚ
  preferredPrice : ℚ
deriving DecidableEq

/-- The initial value of the private `settings` field of `ChargeMonitor`. -/
def defaultSettings : ChargeMonitorSettings :=
  { cutoffHour := 15, maxPrice := 35, stateOfCharge := 85, preferredPrice := 18 }

/-- A `Partial<ChargeMonitorSettings>` argument (absent keys are `none`). -/
structure OverridePatch where
  cutoffHour : Option ℤ := none
  maxPrice : Option ℚ := none
  stateOfCharge : Option ℚ := none
  preferredPrice : Option ℚ := none
deriving DecidableEq

/-- The `overrideSettings` field: `Partial<settings> & { expireAt: number }`. -/
structure OverrideSettings where
  cutoffHour : Option ℤ := none
  maxPrice : Option ℚ := none
  stateOfCharge : Option ℚ := none
  preferredPrice : Option ℚ := none
  expireAt : ℤ
deriving DecidableEq

/-- An entry of the `chargingTimes` history list: `{ time, price }`. -/
structure ChargingEntry where
  time : ℤ
  price : ℚ
deriving DecidableEq

/-- The `lastUpdate` field, a `Partial<ChargeMonitorLastUpdate>`. -/
structure LastUpdate where
  lowestPrices : Option (List PriceInterval) := none
  priceMax : Option ℚ := none
  currentPrice : Option PriceInterval := none
  cutoff : Option ℤ := none
  settings : Option ChargeMonitorSettings := none
  charge : Option Bool := none
  predictedStateOfCharge : Option ℚ := none
  predictedAveragePrice : Option ℚ := none
  isPluggedIn : Option Bool := none
  chargingTimes : Option (List ChargingEntry) := none
deriving DecidableEq

/-- The `values` argument of `setLastUpdate`.  All fields are optional keys;
`chargingTimes` additionally distinguishes a key that is present with the
value `undefined` (`some none`), which the call sites do produce. -/
structure LastUpdateValues where
  lowestPrices : Option (List PriceInterval) := none
  priceMax : Option ℚ := none
  currentPrice : Option PriceInterval := none
  cutoff : Option ℤ := none
  settings : Option ChargeMonitorSettings := none
  charge : Option Bool := none
  predictedStateOfCharge : Option ℚ := none
  predictedAveragePrice : Option ℚ := none
  isPluggedIn : Option Bool := none
  chargingTimes : Option (Option (List ChargingEntry)) := none
deriving DecidableEq

/-- Wall-clock inputs of one call: `Date.now()` in epoch ms, plus the local
calendar fields `getDay()`, `getHours()` and `getMinutes()` of `new Date()`. -/
structure Clock where
  nowMs : ℤ
  day : ℕ
  hour : ℤ
  minute : ℤ
deriving DecidableEq

/-- The mutable state of a `ChargeMonitor` instance. -/
structure MonitorState where
  settings : ChargeMonitorSettings
  lastUpdate : LastUpdate
  overrideSettings : OverrideSettings
deriving DecidableEq

/-- The state of a freshly constructed `ChargeMonitor`. -/
def initialState : MonitorState :=
  { settings := defaultSettings
    lastUpdate := {}
    overrideSettings := { expireAt := 0 } }

/-- JS object-spread semantics for one optional key of
`{...this.lastUpdate, ...values}`: a key present in `values` wins. -/
def mergeField {α : Type} (old new : Option α) : Option α :=
  match new with
  | none => old
  | some x => some x

/-- The `chargingTimes` handling of `setLastUpdate`: when both
`values.chargingTimes` and `this.lastUpdate.chargingTimes` are arrays (truthy),
`values.chargingTimes` is first replaced by the concatenation; then the spread
applies.  A key present with `undefined` (`some none`) skips the concatenation
(undefined is falsy) and overwrites the stored list with `undefined`. -/
def mergeChargingTimes (old : Option (List ChargingEntry)) :
    Option (Option (List ChargingEntry)) → Option (List ChargingEntry)
  | none => old
  | some none => none
  | some (some l) =>
    match old with
    | some ol => some (ol ++ l)
    | none => some l

/-- Method `setLastUpdate(values)`: concatenate `chargingTimes` when both sides hold
arrays, then `this.lastUpdate = {...this.lastUpdate, ...values}`. -/
def setLastUpdate (old : LastUpdate) (v : LastUpdateValues) : LastUpdate :=
  { lowestPrices := mergeField old.lowestPrices v.lowestPrices
    priceMax := mergeField old.priceMax v.priceMax
    currentPrice := mergeField old.currentPrice v.currentPrice
    cutoff := mergeField old.cutoff v.cutoff
    settings := mergeField old.settings v.settings
    charge := mergeField old.charge v.charge
    predictedStateOfCharge := mergeField old.predictedStateOfCharge v.predictedStateOfCharge
    predictedAveragePrice := mergeField old.predictedAveragePrice v.predictedAveragePrice
    isPluggedIn := mergeField old.isPluggedIn v.isPluggedIn
    chargingTimes := mergeChargingTimes old.chargingTimes v.chargingTimes }

/-- Method `overrideSettingsValid()`: `this.overrideSettings.expireAt >= Date.now()`. -/
def overrideSettingsValid (o : OverrideSettings) (nowMs : ℤ) : Bool :=
  decide (o.expireAt ≥ nowMs)

/-- The spread `{...this.settings, ...this.overrideSettings}`: overlay keys
that are present take precedence field-by-field. -/
def applyOverlay (s : ChargeMonitorSettings) (o : OverrideSettings) : ChargeMonitorSettings :=
  { cutoffHour := o.cutoffHour.getD s.cutoffHour
    maxPrice := o.maxPrice.getD s.maxPrice
    stateOfCharge := o.stateOfCharge.getD s.stateOfCharge
    preferredPrice := o.preferredPrice.getD s.preferredPrice }

/-- The calendar fallback of `getSettings`: `let cutoff = 15`, lowered to 9
from Friday 15:00 up to Saturday 09:00 and to 10 from Saturday 09:00 up to
Sunday 10:00 (days: 0 = Sunday, 5 = Friday, 6 = Saturday). -/
def calendarCutoffHour (day : ℕ) (hour : ℤ) : ℤ :=
  if (day == 5 && decide (hour ≥ 15)) || (day == 6 && decide (hour < 9)) then 9
  else if (day == 6 && decide (hour ≥ 9)) || (day == 0 && decide (hour < 10)) then 10
  else 15

/-- Method `getSettings()`: overlay over baseline while the override is valid,
otherwise baseline with the calendar cutoff hour. -/
def getSettings (st : MonitorState) (c : Clock) : ChargeMonitorSettings :=
  if overrideSettingsValid st.overrideSettings c.nowMs then
    applyOverlay st.settings st.overrideSettings
  else
    { st.settings with cutoffHour := calendarCutoffHour c.day c.hour }

/-- Method `updateOverrideSettings(settings, updateExpiry = true)`: the overlay is
wholly replaced by the patch (`{...settings, expireAt: ...}`); `expireAt`
becomes `Date.now() + 24h` when `updateExpiry`, else keeps its prior value. -/
def updateOverrideSettings (st : MonitorState) (patch : OverridePatch)
    (updateExpiry : Bool) (nowMs : ℤ) : MonitorState :=
  { st with overrideSettings :=
    { cutoffHour := patch.cutoffHour
      maxPrice := patch.maxPrice
      stateOfCharge := patch.stateOfCharge
      preferredPrice := patch.preferredPrice
      expireAt := if updateExpiry then nowMs + 24 * 60 * 60 * 1000
                  else st.overrideSettings.expireAt } }

/-- Method `recordPower()`: with the plug sample above 1000 W the vehicle counts as
charging; the state-of-charge increment (clamped at 100) is written through
`updateOverrideSettings(_, false)` only when the override is currently valid.
This is the pure remainder of the method after the awaited `getMerossPlug`
fetch succeeded with wattage `plugPower`; the fallible fetch itself is the
`plugSample` input of `CycleEnv` (its `getSettings()` call precedes the fetch
in the source, but both orders agree since `getSettings` is pure). -/
def recordPower (st : MonitorState) (c : Clock) (plugPower : ℚ) : MonitorState × Bool :=
  let settings := getSettings st c
  if plugPower > 1000 then
    let newStateOfCharge := min (settings.stateOfCharge + 1.25) 100
    (if overrideSettingsValid st.overrideSettings c.nowMs then
       updateOverrideSettings st { stateOfCharge := some newStateOfCharge } false c.nowMs
     else st, true)
  else
    (st, false)

/-- Ordering of price intervals used by `validPrices.sort((a, b) => a.perKwh - b.perKwh)`. -/
def priceLe (a b : PriceInterval) : Prop :=
  a.perKwh ≤ b.perKwh

instance priceLe.decRel : DecidableRel priceLe :=
  fun a b => inferInstanceAs (Decidable (a.perKwh ≤ b.perKwh))

instance priceLe.total : IsTotal PriceInterval priceLe :=
  ⟨fun a b => le_total a.perKwh b.perKwh⟩

instance priceLe.trans : IsTrans PriceInterval priceLe :=
  ⟨fun _ _ _ hab hbc => le_trans hab hbc⟩

/-- JS `Array.prototype.slice(0, n)` for a possibly negative end index `n`. -/
def jsSliceTo {α : Type} (l : List α) (n : ℤ) : List α :=
  if n < 0 then l.take (l.length - n.natAbs) else l.take n.toNat

/-- Source line `requiredTime = Math.ceil((100 - settings.stateOfCharge + 0.1) / 1.25)`. -/
def requiredIntervals (stateOfCharge : ℚ) : ℤ :=
  ⌈(100 - stateOfCharge + 0.1) / 1.25⌉

/-- The array `validPrices` after the in-place sort: the intervals with
`endTimestamp <= cutoff`, stably sorted ascending by `perKwh`. -/
def sortedValidPrices (prices : List PriceInterval) (cutoff : ℤ) : List PriceInterval :=
  List.insertionSort priceLe (prices.filter (fun p => decide (p.endTimestamp ≤ cutoff)))

/-- Source line `lowestPrices = validPrices.slice(0, requiredTime)` — the cheapest window. -/
def lowestPricesOf (prices : List PriceInterval) (cutoff : ℤ) (required : ℤ) : List PriceInterval :=
  jsSliceTo (sortedValidPrices prices cutoff) required

/-- Source line `predictedOnState = validPrices.filter((price) => price.perKwh <= priceMax)`. -/
def predictedOnStateOf (prices : List PriceInterval) (cutoff : ℤ) (priceMax : ℚ) : List PriceInterval :=
  (sortedValidPrices prices cutoff).filter (fun p => decide (p.perKwh ≤ priceMax))

/-- The data `shouldCharge` computes for one batch (its decision together with
the snapshot fields it writes; `insufficientNote` records whether the
informational not-enough-prices message was logged). -/
structure ShouldChargeResult where
  decision : Bool
  lowestPrices : List PriceInterval
  priceMax : ℚ
  currentPrice : PriceInterval
  settings : ChargeMonitorSettings
  predictedStateOfCharge : ℚ
  predictedAveragePrice : ℚ
  insufficientNote : Bool
deriving DecidableEq

/-- The pure core of `shouldCharge` for a fetched batch: reading
`lowestPrices[lowestPrices.length - 1].perKwh` of an empty window raises a
TypeError; a missing current interval raises `No current price found`;
otherwise the decision is `currentPrice.perKwh < priceMax`. -/
def shouldChargeCore (prices : List PriceInterval) (cutoff : ℤ)
    (settings : ChargeMonitorSettings) : Except String ShouldChargeResult :=
  match (lowestPricesOf prices cutoff (requiredIntervals settings.stateOfCharge)).getLast? with
  | none => .error "TypeError: cannot read perKwh of undefined"
  | some dearest =>
    match prices.find? (fun p => p.type == PriceType.CurrentInterval) with
    | none => .error "No current price found"
    | some currentPrice =>
      let priceMax := min (dearest.perKwh + 1) settings.maxPrice
      .ok { decision := decide (currentPrice.perKwh < priceMax)
            lowestPrices := lowestPricesOf prices cutoff (requiredIntervals settings.stateOfCharge)
            priceMax := priceMax
            currentPrice := currentPrice
            settings := settings
            predictedStateOfCharge :=
              min (((predictedOnStateOf prices cutoff priceMax).length : ℚ) * 1.25
                    + settings.stateOfCharge) 100
            predictedAveragePrice :=
              ((predictedOnStateOf prices cutoff priceMax).map PriceInterval.perKwh).sum
                / ((predictedOnStateOf prices cutoff priceMax).length : ℚ)
            insufficientNote :=
              decide (((lowestPricesOf prices cutoff
                (requiredIntervals settings.stateOfCharge)).length : ℤ)
                  < requiredIntervals settings.stateOfCharge) }

/-- Method `shouldCharge()` at the state level: fetch (`src` is the outcome of
`getUpcomingRates`, whose failure propagates), compute, then record the
snapshot through `setLastUpdate` and return the decision. -/
def shouldChargeOp (st : MonitorState) (c : Clock) (cutoff : ℤ)
    (src : Except String (List PriceInterval)) : Except String (MonitorState × Bool) :=
  match src with
  | .error e => .error e
  | .ok prices =>
    let settings := getSettings st c
    match shouldChargeCore prices cutoff settings with
    | .error e => .error e
    | .ok r =>
      let values : LastUpdateValues :=
        { lowestPrices := some r.lowestPrices
          priceMax := some r.priceMax
          currentPrice := some r.currentPrice
          cutoff := some cutoff
          settings := some settings
          charge := some r.decision
          predictedStateOfCharge := some r.predictedStateOfCharge
          predictedAveragePrice := some r.predictedAveragePrice }
      .ok ({ st with lastUpdate := setLastUpdate st.lastUpdate values }, r.decision)

/-- Method `calculateTimeToNextMinute()`: minutes until just past the next half-hour
boundary. -/
def calculateTimeToNextMinute (currentMinute : ℤ) : ℤ :=
  (if currentMinute > 30 then 60 else 30) - currentMinute + 1

/-- The environment consumed by one iteration of `monitor()`:
`c0` is the clock during `shouldCharge`, `c1` the clock after the 20 s settle
sleep (used by `recordPower` and the history entry), `cEnd` the clock at the
final wait computation; `cutoff` is the epoch value `getUpcomingCutoff`
produced from local-calendar `Date` arithmetic; `src` the price-source
outcome.  The plug sink can fail too: `plugOn` / `plugOff` are the outcomes
of `setMerossPlug('EV', true/false)` and `plugSample` the outcome of the
`getMerossPlug('EV')` fetch inside `recordPower` (on success, the sampled
wattage). -/
structure CycleEnv where
  c0 : Clock
  c1 : Clock
  cEnd : Clock
  cutoff : ℤ
  src : Except String (List PriceInterval)
  plugOn : Except String Unit
  plugOff : Except String Unit
  plugSample : Except String ℚ

/-- What one loop iteration did: the successor state, the plug command that
succeeded (`some true` = ON, `some false` = OFF, `none` = none completed),
the duration of the final interruptible sleep in ms, and the caught error,
if any. -/
structure CycleResult where
  state : MonitorState
  plugCommand : Option Bool
  waitMs : ℤ
  failed : Option String
deriving DecidableEq

/-- One iteration of the `while (true)` body of `monitor()`.  A throw from
`shouldCharge`, from either `setMerossPlug` call, or from the plug fetch in
`recordPower` reaches the `catch`, which logs and sleeps 60 s; state changes
already performed before the throw (the `shouldCharge` snapshot, an already
issued ON command) persist.  Every branch produces a successor state and a
wait, so no error terminates the loop. -/
def monitorCycle (st : MonitorState) (env : CycleEnv) : CycleResult :=
  match shouldChargeOp st env.c0 env.cutoff env.src with
  | .error e => { state := st, plugCommand := none, waitMs := 60000, failed := some e }
  | .ok (st1, decision) =>
    if decision then
      match env.plugOn with
      | .error e => { state := st1, plugCommand := none, waitMs := 60000, failed := some e }
      | .ok _ =>
        match env.plugSample with
        | .error e =>
          { state := st1, plugCommand := some true, waitMs := 60000, failed := some e }
        | .ok power =>
          let rp := recordPower st1 env.c1 power
          let isPluggedIn := rp.2
          let entry : ChargingEntry :=
            { time := env.c1.nowMs
              price := (rp.1.lastUpdate.currentPrice.map PriceInterval.perKwh).getD 0 }
          let values : LastUpdateValues :=
            { isPluggedIn := some isPluggedIn
              chargingTimes := some (if isPluggedIn then some [entry] else none) }
          let st2 := { rp.1 with lastUpdate := setLastUpdate rp.1.lastUpdate values }
          { state := st2, plugCommand := some true
            waitMs := calculateTimeToNextMinute env.cEnd.minute * 60000, failed := none }
    else
      match env.plugOff with
      | .error e => { state := st1, plugCommand := none, waitMs := 60000, failed := some e }
      | .ok _ =>
        let values : LastUpdateValues := { isPluggedIn := some false }
        let st2 := { st1 with lastUpdate := setLastUpdate st1.lastUpdate values }
        { state := st2, plugCommand := some false
          waitMs := calculateTimeToNextMinute env.cEnd.minute * 60000, failed := none }

/-! ### Helper lemmas about the cheapest window -/

theorem jsSliceTo_sublist {α : Type} (l : List α) (n : ℤ) : (jsSliceTo l n).Sublist l := by
  unfold jsSliceTo
  split <;> exact List.take_sublist _ _

theorem sorted_lowestPricesOf (prices : List PriceInterval) (cutoff : ℤ) (n : ℤ) :
    (lowestPricesOf prices cutoff n).Sorted priceLe :=
  List.Pairwise.sublist (jsSliceTo_sublist _ _) (List.sorted_insertionSort priceLe _)

theorem mem_of_getLast?_eq_some {α : Type} :
    ∀ {l : List α} {a : α}, l.getLast? = some a → a ∈ l := by
  intro l
  induction l with
  | nil => intro a ha; simp at ha
  | cons x t ih =>
    intro a ha
    cases t with
    | nil =>
      simp only [List.getLast?_singleton, Option.some.injEq] at ha
      simp [ha]
    | cons y t' =>
      rw [List.getLast?_cons_cons] at ha
      exact List.mem_cons_of_mem x (ih ha)

theorem sorted_getLast?_ge :
    ∀ (l : List PriceInterval), l.Sorted priceLe →
      ∀ a, l.getLast? = some a → ∀ b ∈ l, priceLe b a := by
  intro l
  induction l with
  | nil => intro _ a ha; simp at ha
  | cons x t ih =>
    intro hs a ha b hb
    cases t with
    | nil =>
      simp only [List.getLast?_singleton, Option.some.injEq] at ha
      simp only [List.mem_singleton] at hb
      subst ha; subst hb
      exact le_refl _
    | cons y t' =>
      rw [List.getLast?_cons_cons] at ha
      rcases List.mem_cons.mp hb with rfl | hb'
      · exact (List.sorted_cons.mp hs).1 a (mem_of_getLast?_eq_some ha)
      · exact ih (List.sorted_cons.mp hs).2 a ha b hb'

/-! ### Concrete inputs used by witnesses (the spec's end-to-end scenario) -/

/-- The forecast batch of the spec's end-to-end scenario: twelve forecast
intervals priced 10..32 ending before the cutoff, and a current interval
priced 14 ending after it. -/
def exampleForecast : List PriceInterval :=
  [⟨14, 2000, .CurrentInterval⟩,
   ⟨10, 1, .Forecast⟩, ⟨12, 2, .Forecast⟩, ⟨14, 3, .Forecast⟩, ⟨16, 4, .Forecast⟩,
   ⟨18, 5, .Forecast⟩, ⟨20, 6, .Forecast⟩, ⟨22, 7, .Forecast⟩, ⟨24, 8, .Forecast⟩,
   ⟨26, 9, .Forecast⟩, ⟨28, 10, .Forecast⟩, ⟨30, 11, .Forecast⟩, ⟨32, 12, .Forecast⟩]

/-- Dummy result used as the `getD` fallback when extracting an `ok` payload. -/
def fallbackResult : ShouldChargeResult :=
  { decision := false, lowestPrices := [], priceMax := 0
    currentPrice := { perKwh := 0, endTimestamp := 0, type := PriceType.Forecast }
    settings := defaultSettings, predictedStateOfCharge := 0, predictedAveragePrice := 0
    insufficientNote := false }

/-- The computed result of `shouldCharge` on the example batch. -/
def exampleResult : ShouldChargeResult :=
  (shouldChargeCore exampleForecast 1000 defaultSettings).toOption.getD fallbackResult

/-- The current interval of the example batch. -/
def exampleCurrent : PriceInterval := ⟨14, 2000, PriceType.CurrentInterval⟩

/-! ### C1 -/

/-- C1: for every batch on which `shouldCharge` completes (a current
interval was found and the cheapest window was non-empty), the decision is
`true` iff the current interval's `perKwh` is strictly below the computed
`priceMax`; at equality the decision is `false`. -/
theorem C1_shouldCharge_decision_iff
    (prices : List PriceInterval) (cutoff : ℤ) (s : ChargeMonitorSettings)
    (r : ShouldChargeResult) (cp : PriceInterval)
    (hok : shouldChargeCore prices cutoff s = .ok r)
    (hcp : prices.find? (fun p => p.type == PriceType.CurrentInterval) = some cp) :
    (r.decision = true ↔ cp.perKwh < r.priceMax) ∧
    (cp.perKwh = r.priceMax → r.decision = false) := by
  unfold shouldChargeCore at hok
  split at hok
  · exact absurd hok (by simp)
  · rw [hcp] at hok
    simp only [Except.ok.injEq] at hok
    subst hok
    refine ⟨by simp, ?_⟩
    intro h
    simp [h]

theorem C1_witness :
    (exampleResult.decision = true ↔ exampleCurrent.perKwh < exampleResult.priceMax) ∧
    (exampleCurrent.perKwh = exampleResult.priceMax → exampleResult.decision = false) :=
  C1_shouldCharge_decision_iff exampleForecast 1000 defaultSettings exampleResult exampleCurrent
    (by with_unfolding_all rfl) (by with_unfolding_all rfl)

/-! ### C2 -/

/-- C2: whenever `shouldCharge` completes, `priceMax` equals
`min(max perKwh over the cheapest window + 1, settings.maxPrice)` (the
most-expensive member of the window attains the maximum), and consequently
`priceMax ≤ settings.maxPrice`. -/
theorem C2_priceMax_eq_min_windowMax
    (prices : List PriceInterval) (cutoff : ℤ) (s : ChargeMonitorSettings)
    (r : ShouldChargeResult)
    (hok : shouldChargeCore prices cutoff s = .ok r) :
    (∃ dear, dear ∈ r.lowestPrices ∧
      (∀ p ∈ r.lowestPrices, p.perKwh ≤ dear.perKwh) ∧
      r.priceMax = min (dear.perKwh + 1) s.maxPrice) ∧
    r.priceMax ≤ s.maxPrice := by
  unfold shouldChargeCore at hok
  split at hok
  · exact absurd hok (by simp)
  · rename_i dearest hlast
    split at hok
    · exact absurd hok (by simp)
    · simp only [Except.ok.injEq] at hok
      subst hok
      refine ⟨⟨dearest, mem_of_getLast?_eq_some hlast, ?_, rfl⟩, min_le_right _ _⟩
      exact sorted_getLast?_ge _ (sorted_lowestPricesOf prices cutoff _) dearest hlast

theorem C2_witness :
    (∃ dear, dear ∈ exampleResult.lowestPrices ∧
      (∀ p ∈ exampleResult.lowestPrices, p.perKwh ≤ dear.perKwh) ∧
      exampleResult.priceMax = min (dear.perKwh + 1) defaultSettings.maxPrice) ∧
    exampleResult.priceMax ≤ defaultSettings.maxPrice :=
  C2_priceMax_eq_min_windowMax exampleForecast 1000 defaultSettings exampleResult
    (by with_unfolding_all rfl)

/-! ### The implicit state-of-charge increment (shared helpers) -/

/-- While the override is valid, the effective `stateOfCharge` is the overlay
value whenever the overlay carries one. -/
theorem getSettings_stateOfCharge_of_valid (st : MonitorState) (c : Clock) (v : ℚ)
    (hval : overrideSettingsValid st.overrideSettings c.nowMs = true)
    (hsoc : st.overrideSettings.stateOfCharge = some v) :
    (getSettings st c).stateOfCharge = v := by
  simp [getSettings, hval, applyOverlay, hsoc]

/-- With a valid override and a charging sample, `recordPower` routes the
increment through `updateOverrideSettings({stateOfCharge}, false)`, which
REPLACES the overlay: the new overlay carries only `stateOfCharge` (clamped at
100) plus the preserved `expireAt`; all other previously present overlay
fields are dropped. -/
theorem recordPower_valid_overlay
    (st : MonitorState) (c : Clock) (power : ℚ)
    (hv : overrideSettingsValid st.overrideSettings c.nowMs = true)
    (hp : power > 1000) :
    (recordPower st c power).1.overrideSettings =
      { cutoffHour := none, maxPrice := none, preferredPrice := none
        stateOfCharge := some (min ((getSettings st c).stateOfCharge + 1.25) 100)
        expireAt := st.overrideSettings.expireAt } ∧
    (recordPower st c power).2 = true := by
  unfold recordPower updateOverrideSettings
  simp [hp, hv]

/-! ### C3 -/

/-- State with a valid override overlay that carries a `maxPrice` field. -/
def c3State : MonitorState :=
  { initialState with overrideSettings := { maxPrice := some 50, expireAt := 1000000 } }

/-- Clock at which the C3 override is valid. -/
def c3Clock : Clock := { nowMs := 500, day := 1, hour := 12, minute := 0 }

/-- C3 counterexample: an overlay field other than `stateOfCharge`
(`maxPrice = 50`) is present before the implicit increment and gone after it,
refuting that every other overlay field is preserved. -/
theorem C3_counterexample :
    overrideSettingsValid c3State.overrideSettings c3Clock.nowMs = true ∧
    c3State.overrideSettings.maxPrice = some 50 ∧
    (recordPower c3State c3Clock 1500).2 = true ∧
    (recordPower c3State c3Clock 1500).1.overrideSettings.maxPrice = none := by
  with_unfolding_all decide

/-- C3 (amended): when a valid override is present and a charging sample
triggers the implicit increment, the overlay is wholly replaced: afterwards it
contains only `stateOfCharge = min(effective stateOfCharge + 1.25, 100)`
together with the preserved `expireAt`; every other overlay field is cleared
rather than preserved. -/
theorem C3_amended_increment_replaces_overlay
    (st : MonitorState) (c : Clock) (power : ℚ)
    (hv : overrideSettingsValid st.overrideSettings c.nowMs = true)
    (hp : power > 1000) :
    (recordPower st c power).1.overrideSettings =
      { cutoffHour := none, maxPrice := none, preferredPrice := none
        stateOfCharge := some (min ((getSettings st c).stateOfCharge + 1.25) 100)
        expireAt := st.overrideSettings.expireAt } ∧
    (recordPower st c power).2 = true :=
  recordPower_valid_overlay st c power hv hp

theorem C3_witness :
    (recordPower c3State c3Clock 1500).1.overrideSettings =
      { cutoffHour := none, maxPrice := none, preferredPrice := none
        stateOfCharge := some (min ((getSettings c3State c3Clock).stateOfCharge + 1.25) 100)
        expireAt := c3State.overrideSettings.expireAt } ∧
    (recordPower c3State c3Clock 1500).2 = true :=
  C3_amended_increment_replaces_overlay c3State c3Clock 1500
    (by with_unfolding_all rfl) (by norm_num)

/-! ### C5 -/

/-- C5: with no valid override, `getSettings` returns the baseline
settings with `cutoffHour` given by the calendar rule: 9 from Friday 15:00
through Saturday before 09:00, 10 from Saturday 09:00 through Sunday before
10:00, and the baseline cutoff hour otherwise. -/
theorem C5_getSettings_calendar_rule
    (st : MonitorState) (c : Clock)
    (hbase : st.settings = defaultSettings)
    (hv : overrideSettingsValid st.overrideSettings c.nowMs = false) :
    getSettings st c = { defaultSettings with cutoffHour := calendarCutoffHour c.day c.hour } ∧
    ((c.day = 5 ∧ 15 ≤ c.hour) ∨ (c.day = 6 ∧ c.hour < 9) →
      (getSettings st c).cutoffHour = 9) ∧
    ((c.day = 6 ∧ 9 ≤ c.hour) ∨ (c.day = 0 ∧ c.hour < 10) →
      (getSettings st c).cutoffHour = 10) ∧
    (¬ ((c.day = 5 ∧ 15 ≤ c.hour) ∨ (c.day = 6 ∧ c.hour < 9)) →
      ¬ ((c.day = 6 ∧ 9 ≤ c.hour) ∨ (c.day = 0 ∧ c.hour < 10)) →
      (getSettings st c).cutoffHour = defaultSettings.cutoffHour) := by
  have hg : getSettings st c =
      { defaultSettings with cutoffHour := calendarCutoffHour c.day c.hour } := by
    simp [getSettings, hv, hbase]
  refine ⟨hg, ?_, ?_, ?_⟩
  · intro h
    rw [hg]
    unfold calendarCutoffHour
    rw [if_pos]
    simp only [Bool.or_eq_true, Bool.and_eq_true, beq_iff_eq, decide_eq_true_eq]
    omega
  · intro h
    rw [hg]
    unfold calendarCutoffHour
    rw [if_neg, if_pos]
    · simp only [Bool.or_eq_true, Bool.and_eq_true, beq_iff_eq, decide_eq_true_eq]
      omega
    · simp only [Bool.or_eq_true, Bool.and_eq_true, beq_iff_eq, decide_eq_true_eq]
      omega
  · intro h1 h2
    rw [hg]
    unfold calendarCutoffHour
    rw [if_neg, if_neg]
    · rfl
    · simp only [Bool.or_eq_true, Bool.and_eq_true, beq_iff_eq, decide_eq_true_eq]
      omega
    · simp only [Bool.or_eq_true, Bool.and_eq_true, beq_iff_eq, decide_eq_true_eq]
      omega

/-- Clock for the C5 witness: Friday 15:00, with the override expired. -/
def c5Clock : Clock := { nowMs := 1, day := 5, hour := 15, minute := 0 }

theorem C5_witness :
    getSettings initialState c5Clock =
      { defaultSettings with cutoffHour := calendarCutoffHour c5Clock.day c5Clock.hour } ∧
    ((c5Clock.day = 5 ∧ 15 ≤ c5Clock.hour) ∨ (c5Clock.day = 6 ∧ c5Clock.hour < 9) →
      (getSettings initialState c5Clock).cutoffHour = 9) ∧
    ((c5Clock.day = 6 ∧ 9 ≤ c5Clock.hour) ∨ (c5Clock.day = 0 ∧ c5Clock.hour < 10) →
      (getSettings initialState c5Clock).cutoffHour = 10) ∧
    (¬ ((c5Clock.day = 5 ∧ 15 ≤ c5Clock.hour) ∨ (c5Clock.day = 6 ∧ c5Clock.hour < 9)) →
      ¬ ((c5Clock.day = 6 ∧ 9 ≤ c5Clock.hour) ∨ (c5Clock.day = 0 ∧ c5Clock.hour < 10)) →
      (getSettings initialState c5Clock).cutoffHour = defaultSettings.cutoffHour) :=
  C5_getSettings_calendar_rule initialState c5Clock rfl (by with_unfolding_all rfl)

/-! ### C6 -/

/-- Batch in which the current interval itself ends before the cutoff. -/
def c6Prices : List PriceInterval :=
  [⟨10, 100, .CurrentInterval⟩, ⟨20, 200, .Forecast⟩]

/-- The computed result of `shouldCharge` on `c6Prices`. -/
def c6Result : ShouldChargeResult :=
  (shouldChargeCore c6Prices 1000 defaultSettings).toOption.getD fallbackResult

/-- C6 counterexample: a price of current-interval type whose
`endTimestamp` is before the cutoff IS selected into the cheapest window —
current-interval prices are not excluded from candidacy. -/
theorem C6_counterexample :
    shouldChargeCore c6Prices 1000 defaultSettings = .ok c6Result ∧
    c6Result.lowestPrices.any (fun p => p.type == PriceType.CurrentInterval) = true := by
  refine ⟨?_, ?_⟩ <;> with_unfolding_all rfl

/-- C6 (amended): the cheapest window consists of the first
`requiredIntervals` elements of ALL intervals with `endTimestamp ≤ cutoff`
(current-interval-typed prices included as candidates), stably sorted
ascending by `perKwh`; every member ends at or before the cutoff. -/
theorem C6_amended_window_shape
    (prices : List PriceInterval) (cutoff : ℤ) (s : ChargeMonitorSettings)
    (r : ShouldChargeResult)
    (hok : shouldChargeCore prices cutoff s = .ok r) :
    r.lowestPrices =
      jsSliceTo (List.insertionSort priceLe
          (prices.filter (fun p => decide (p.endTimestamp ≤ cutoff))))
        (requiredIntervals s.stateOfCharge) ∧
    r.lowestPrices.Sorted priceLe ∧
    (∀ p ∈ r.lowestPrices, p.endTimestamp ≤ cutoff) := by
  unfold shouldChargeCore at hok
  split at hok
  · exact absurd hok (by simp)
  · split at hok
    · exact absurd hok (by simp)
    · simp only [Except.ok.injEq] at hok
      subst hok
      refine ⟨rfl, sorted_lowestPricesOf prices cutoff _, ?_⟩
      intro p hp
      have h1 : p ∈ sortedValidPrices prices cutoff :=
        (jsSliceTo_sublist _ _).subset hp
      have h2 : p ∈ prices.filter (fun p => decide (p.endTimestamp ≤ cutoff)) :=
        ((List.perm_insertionSort priceLe _).mem_iff).mp h1
      exact of_decide_eq_true (List.mem_filter.mp h2).2

theorem C6_witness :
    c6Result.lowestPrices =
      jsSliceTo (List.insertionSort priceLe
          (c6Prices.filter (fun p => decide (p.endTimestamp ≤ 1000))))
        (requiredIntervals defaultSettings.stateOfCharge) ∧
    c6Result.lowestPrices.Sorted priceLe ∧
    (∀ p ∈ c6Result.lowestPrices, p.endTimestamp ≤ 1000) :=
  C6_amended_window_shape c6Prices 1000 defaultSettings c6Result
    (by with_unfolding_all rfl)

/-! ### C7 -/

/-- State produced by an explicit override request carrying
`stateOfCharge = 150`. -/
def c7State : MonitorState :=
  updateOverrideSettings initialState { stateOfCharge := some 150 } true 0

/-- Clock at which that override is valid. -/
def c7Clock : Clock := { nowMs := 0, day := 1, hour := 12, minute := 0 }

/-- C7 counterexample: the explicit override request performs no clamping,
so right after `updateOverrideSettings({stateOfCharge: 150})` the effective
state of charge is 150, outside `[0, 100]`. -/
theorem C7_counterexample :
    (getSettings c7State c7Clock).stateOfCharge = 150 ∧
    ¬ (getSettings c7State c7Clock).stateOfCharge ≤ 100 := by
  with_unfolding_all decide

/-- C7 (amended): only the implicit charging increment clamps — after it
(with a valid override) the effective state of charge is
`min(previous + 1.25, 100)` and hence at most 100; the explicit override
request stores its value unclamped, so values outside `[0, 100]` persist. -/
theorem C7_amended_increment_clamped
    (st : MonitorState) (c : Clock) (power : ℚ)
    (hv : overrideSettingsValid st.overrideSettings c.nowMs = true)
    (hp : power > 1000) :
    (getSettings (recordPower st c power).1 c).stateOfCharge =
      min ((getSettings st c).stateOfCharge + 1.25) 100 ∧
    (getSettings (recordPower st c power).1 c).stateOfCharge ≤ 100 := by
  have hov := (recordPower_valid_overlay st c power hv hp).1
  have hvalid : overrideSettingsValid (recordPower st c power).1.overrideSettings c.nowMs
      = true := by
    rw [hov]; exact hv
  have hsoc : (recordPower st c power).1.overrideSettings.stateOfCharge =
      some (min ((getSettings st c).stateOfCharge + 1.25) 100) := by
    rw [hov]
  have h1 : (getSettings (recordPower st c power).1 c).stateOfCharge =
      min ((getSettings st c).stateOfCharge + 1.25) 100 :=
    getSettings_stateOfCharge_of_valid _ _ _ hvalid hsoc
  exact ⟨h1, h1 ▸ min_le_right _ _⟩

theorem C7_witness :
    (getSettings (recordPower c3State c3Clock 1200).1 c3Clock).stateOfCharge =
      min ((getSettings c3State c3Clock).stateOfCharge + 1.25) 100 ∧
    (getSettings (recordPower c3State c3Clock 1200).1 c3Clock).stateOfCharge ≤ 100 :=
  C7_amended_increment_clamped c3State c3Clock 1200
    (by with_unfolding_all rfl) (by norm_num)

/-! ### C4 -/

/-- State in which one charging-history entry has already been recorded. -/
def c4State : MonitorState :=
  { initialState with lastUpdate := { chargingTimes := some [⟨100, 20⟩] } }

/-- Cycle environment: the decision comes out `true` (current price 10 is
below the computed ceiling 13), but the sampled plug power is only 500 W. -/
def c4Env : CycleEnv :=
  { c0 := ⟨10000, 1, 12, 0⟩, c1 := ⟨10020, 1, 12, 0⟩, cEnd := ⟨10040, 1, 12, 1⟩
    cutoff := 1000
    src := .ok [⟨10, 500, .CurrentInterval⟩, ⟨12, 600, .Forecast⟩]
    plugOn := .ok ()
    plugOff := .ok ()
    plugSample := .ok 500 }

/-- C4: the charging-history list is NOT append-only.  In the charging
branch with plug power at or below 1000 W, `monitor` calls
`setLastUpdate({isPluggedIn: false, chargingTimes: undefined})`; the
`chargingTimes` key is present with value `undefined`, so the object spread
overwrites the stored list — a previously recorded entry is erased and the
length drops from 1 to 0, although the cycle completed without error. -/
theorem C4_history_wiped :
    c4State.lastUpdate.chargingTimes = some [⟨100, 20⟩] ∧
    (monitorCycle c4State c4Env).failed = none ∧
    (monitorCycle c4State c4Env).state.lastUpdate.chargingTimes = none := by
  with_unfolding_all decide

/-! ### C8 -/

/-- A batch whose only interval is the current one, ending after the cutoff. -/
def c8Prices : List PriceInterval := [⟨10, 2000, .CurrentInterval⟩]

/-- C8 counterexample: `shouldCharge` throws although the batch DOES
contain a current interval — the empty cheapest window makes
`lowestPrices[lowestPrices.length - 1].perKwh` fail first, so the error
condition is not exactly "batch lacks a current interval". -/
theorem C8_counterexample :
    (c8Prices.find? (fun p => p.type == PriceType.CurrentInterval)).isSome = true ∧
    shouldChargeCore c8Prices 1000 defaultSettings =
      .error "TypeError: cannot read perKwh of undefined" := by
  refine ⟨?_, ?_⟩ <;> with_unfolding_all rfl

/-- Helper: whatever the failure mode of a cycle — price fetch, the
`shouldCharge` errors, either `setMerossPlug` call, or the plug fetch in
`recordPower` — a failed cycle always ends in the 60 s back-off sleep. -/
theorem monitorCycle_failed_waitMs (st : MonitorState) (env : CycleEnv) :
    (monitorCycle st env).failed = none ∨ (monitorCycle st env).waitMs = 60000 := by
  unfold monitorCycle
  split
  · exact Or.inr rfl
  · split
    · split
      · exact Or.inr rfl
      · split
        · exact Or.inr rfl
        · exact Or.inl rfl
    · split
      · exact Or.inr rfl
      · exact Or.inl rfl

/-- C8 (amended): `shouldCharge` propagates a price-source failure
unchanged; its own error occurs exactly when the cheapest window is empty OR
the batch lacks a current interval; and the control loop catches any failure
of a cycle (price fetch, decision errors or plug-sink failures alike),
sleeps 60 seconds, and resumes — no error terminates the loop. -/
theorem C8_amended_error_containment
    (st : MonitorState) (env : CycleEnv) (e : String)
    (prices : List PriceInterval) (cutoff : ℤ) (s : ChargeMonitorSettings) :
    (shouldChargeOp st env.c0 env.cutoff (.error e) = .error e) ∧
    ((∃ msg, shouldChargeCore prices cutoff s = .error msg) ↔
      (lowestPricesOf prices cutoff (requiredIntervals s.stateOfCharge) = [] ∨
       prices.find? (fun p => p.type == PriceType.CurrentInterval) = none)) ∧
    (∀ msg, (monitorCycle st env).failed = some msg →
      (monitorCycle st env).waitMs = 60000) := by
  refine ⟨rfl, ?_, ?_⟩
  · constructor
    · rintro ⟨msg, hmsg⟩
      unfold shouldChargeCore at hmsg
      split at hmsg
      · rename_i hl
        exact Or.inl (List.getLast?_eq_none_iff.mp hl)
      · split at hmsg
        · rename_i hf
          exact Or.inr hf
        · exact absurd hmsg (by simp)
    · intro h
      unfold shouldChargeCore
      rcases h with h | h
      · rw [List.getLast?_eq_none_iff.mpr h]
        exact ⟨_, rfl⟩
      · cases hl : (lowestPricesOf prices cutoff (requiredIntervals s.stateOfCharge)).getLast? with
        | none => exact ⟨_, rfl⟩
        | some dearest =>
          rw [h]
          exact ⟨_, rfl⟩
  · intro msg hmsg
    rcases monitorCycle_failed_waitMs st env with h | h
    · rw [hmsg] at h
      exact Option.noConfusion h
    · exact h

/-- A cycle that fails in the plug phase: the decision comes out `true` but
the `setMerossPlug('EV', true)` call throws — after the `shouldCharge`
snapshot was already written. -/
def c8PlugEnv : CycleEnv :=
  { c0 := ⟨10000, 1, 12, 0⟩, c1 := ⟨10020, 1, 12, 0⟩, cEnd := ⟨10040, 1, 12, 1⟩
    cutoff := 1000
    src := .ok [⟨10, 500, .CurrentInterval⟩, ⟨12, 600, .Forecast⟩]
    plugOn := .error "plug unreachable"
    plugOff := .ok ()
    plugSample := .ok 0 }

theorem C8_witness :
    (monitorCycle initialState c8PlugEnv).waitMs = 60000 :=
  (C8_amended_error_containment initialState c8PlugEnv "network down" [] 0
    defaultSettings).2.2 "plug unreachable" (by with_unfolding_all rfl)

/-! ### C9 -/

/-- A batch with no interval ending at or before the cutoff. -/
def c9Prices : List PriceInterval :=
  [⟨10, 5000, .CurrentInterval⟩, ⟨12, 6000, .Forecast⟩]

/-- C9 counterexample: with ZERO intervals ending at or before the cutoff
(so certainly fewer than required), `shouldCharge` does not log-and-proceed —
it raises the TypeError from the empty window, producing no decision. -/
theorem C9_counterexample :
    (c9Prices.filter (fun p => decide (p.endTimestamp ≤ 100))).length = 0 ∧
    shouldChargeCore c9Prices 100 defaultSettings =
      .error "TypeError: cannot read perKwh of undefined" := by
  refine ⟨?_, ?_⟩ <;> with_unfolding_all rfl

/-- C9 (amended): when at least one but fewer than `requiredIntervals`
candidates end at or before the cutoff and a current interval exists,
`shouldCharge` completes without error, records the informational
not-enough-prices note, and produces a decision; with zero candidates it
instead throws. -/
theorem C9_amended_partial_window_note
    (prices : List PriceInterval) (cutoff : ℤ) (s : ChargeMonitorSettings)
    (hne : lowestPricesOf prices cutoff (requiredIntervals s.stateOfCharge) ≠ [])
    (hlt : ((lowestPricesOf prices cutoff (requiredIntervals s.stateOfCharge)).length : ℤ)
        < requiredIntervals s.stateOfCharge)
    (hcp : (prices.find? (fun p => p.type == PriceType.CurrentInterval)).isSome = true) :
    ∃ r, shouldChargeCore prices cutoff s = .ok r ∧ r.insufficientNote = true := by
  unfold shouldChargeCore
  cases hl : (lowestPricesOf prices cutoff (requiredIntervals s.stateOfCharge)).getLast? with
  | none => exact absurd (List.getLast?_eq_none_iff.mp hl) hne
  | some dearest =>
    cases hf : prices.find? (fun p => p.type == PriceType.CurrentInterval) with
    | none => rw [hf] at hcp; simp at hcp
    | some cp =>
      refine ⟨_, rfl, ?_⟩
      exact decide_eq_true hlt

theorem C9_witness :
    ∃ r, shouldChargeCore exampleForecast 1000 defaultSettings = .ok r ∧
      r.insufficientNote = true :=
  C9_amended_partial_window_note exampleForecast 1000 defaultSettings
    (by with_unfolding_all decide) (by with_unfolding_all decide)
    (by with_unfolding_all rfl)

/-! ### C10 -/

/-- Helper: `recordPower` never touches the last-update snapshot. -/
theorem recordPower_lastUpdate (st : MonitorState) (c : Clock) (power : ℚ) :
    (recordPower st c power).1.lastUpdate = st.lastUpdate := by
  unfold recordPower updateOverrideSettings
  dsimp only
  split
  · split <;> rfl
  · rfl

/-- C10: in the charging branch, a plug sample above 1000 W makes
`recordPower` return `true`, and the loop then records `isPluggedIn = true`
and appends one history entry `{time: now, price: snapshotted current price,
default 0}` — with no requirement that a valid override exist. -/
theorem C10_charging_history_append
    (st : MonitorState) (env : CycleEnv) (st1 : MonitorState) (power : ℚ)
    (hok : shouldChargeOp st env.c0 env.cutoff env.src = .ok (st1, true))
    (hon : env.plugOn = .ok ())
    (hps : env.plugSample = .ok power)
    (hp : power > 1000) :
    (recordPower st1 env.c1 power).2 = true ∧
    (monitorCycle st env).plugCommand = some true ∧
    (monitorCycle st env).state.lastUpdate.isPluggedIn = some true ∧
    (monitorCycle st env).state.lastUpdate.chargingTimes =
      some (st1.lastUpdate.chargingTimes.getD [] ++
        [⟨env.c1.nowMs, (st1.lastUpdate.currentPrice.map PriceInterval.perKwh).getD 0⟩]) := by
  have hrp2 : (recordPower st1 env.c1 power).2 = true := by
    unfold recordPower
    simp [hp]
  have hlu : (recordPower st1 env.c1 power).1.lastUpdate = st1.lastUpdate :=
    recordPower_lastUpdate st1 env.c1 power
  refine ⟨hrp2, ?_, ?_, ?_⟩ <;>
    (unfold monitorCycle; rw [hok, hon, hps]; dsimp only; rw [hrp2, hlu])
  · rfl
  · rfl
  · cases hct : st1.lastUpdate.chargingTimes with
    | none => simp [setLastUpdate, mergeChargingTimes, hct]
    | some ol => simp [setLastUpdate, mergeChargingTimes, hct]

/-- Environment for the C10 witness: decision `true`, plug commands succeed,
sampled plug power 1500 W. -/
def c10Env : CycleEnv :=
  { c0 := ⟨10000, 1, 12, 0⟩, c1 := ⟨10020, 1, 12, 0⟩, cEnd := ⟨10040, 1, 12, 1⟩
    cutoff := 1000
    src := .ok [⟨10, 500, .CurrentInterval⟩, ⟨12, 600, .Forecast⟩]
    plugOn := .ok ()
    plugOff := .ok ()
    plugSample := .ok 1500 }

/-- The state after the decision phase of the C10 witness cycle. -/
def c10St1 : MonitorState :=
  ((shouldChargeOp c4State c10Env.c0 c10Env.cutoff c10Env.src).toOption.getD
    (initialState, false)).1

theorem C10_witness :
    (recordPower c10St1 c10Env.c1 1500).2 = true ∧
    (monitorCycle c4State c10Env).plugCommand = some true ∧
    (monitorCycle c4State c10Env).state.lastUpdate.isPluggedIn = some true ∧
    (monitorCycle c4State c10Env).state.lastUpdate.chargingTimes =
      some (c10St1.lastUpdate.chargingTimes.getD [] ++
        [⟨c10Env.c1.nowMs, (c10St1.lastUpdate.currentPrice.map PriceInterval.perKwh).getD 0⟩]) :=
  C10_charging_history_append c4State c10Env c10St1 1500
    (by with_unfolding_all rfl) rfl rfl (by norm_num)
